import Mathlib

/-!
Shallow embedding of the fault-injection / task-simulation core of the
`test-org-sentry/test-python` repository, together with theorems checking the
natural-language specification against it.

Modules embedded (source file → Lean namespace):
* `src/app/sentry_config.py`      → `SentryConfig`
* `src/app/utils.py`              → `Utils`
* `src/app/external_apis.py`      → `ExternalApis`
* `src/app/background_tasks.py`   → `BackgroundTasks`
* `src/app/database.py`           → `Database`

Python `random.random()` draws are passed in as explicit rational parameters
`r`; `random.randint`/`random.uniform` draws likewise.  Python numbers are
modelled with exact rationals (`ℚ`).  Python dicts with string keys are
modelled as association lists (`List (String × _)`) with first-occurrence
lookup and in-place overwrite, matching dict semantics on duplicate-free key
lists.  Fallible Python functions become `Except PyError _`.
-/

/-- The exception values raised by the embedded code.  Python distinguishes the
classes; `str(e)` is the carried message. -/
inductive PyError where
  | validationError (msg : String)
  | valueError (msg : String)
  | paymentError (msg : String)
  | fileNotFoundError (msg : String)
  | userNotFoundError (msg : String)
  | externalAPIError (msg : String)
  | operationalError (msg : String)
  | nameError (msg : String)
  | exceptionError (msg : String)
  deriving DecidableEq, Repr

/-- Python `str(e)`: the message carried by the exception. -/
def PyError.str : PyError → String
  | .validationError m => m
  | .valueError m => m
  | .paymentError m => m
  | .fileNotFoundError m => m
  | .userNotFoundError m => m
  | .externalAPIError m => m
  | .operationalError m => m
  | .nameError m => m
  | .exceptionError m => m

/-- Dictionary values appearing in the payloads returned by the simulators. -/
inductive PyVal where
  | s (v : String)
  | q (v : ℚ)
  | n (v : ℕ)
  | b (v : Bool)
  deriving DecidableEq, Repr

/-- A Python dict payload: string keys to values. -/
abbrev Payload := List (String × PyVal)

/-- Fault Policy (spec §4.1): the code pattern `random.random() < p`, with the
draw `r` made explicit. -/
def should_fail (p r : ℚ) : Bool := decide (r < p)

/-- First-occurrence lookup in an association list (Python dict read). -/
def listGet {α : Type} : List (String × α) → String → Option α
  | [], _ => none
  | (k, v) :: rest, key => if k = key then some v else listGet rest key

/-- Python dict assignment `m[k] = v`: overwrite the entry in place if the key
is present, append otherwise. -/
def listSet {α : Type} : List (String × α) → String → α → List (String × α)
  | [], key, v => [(key, v)]
  | (k, w) :: rest, key, v =>
      if k = key then (k, v) :: rest else (k, w) :: listSet rest key v

/-- Update the entry at a key in place, leaving the list unchanged when the key
is absent (Python `m[k]['field'] = ...` on a present key). -/
def listUpdate {α : Type} : List (String × α) → String → (α → α) → List (String × α)
  | [], _, _ => []
  | (k, v) :: rest, key, f =>
      if k = key then (k, f v) :: rest else (k, v) :: listUpdate rest key f

theorem listGet_listSet_self {α : Type} (m : List (String × α)) (k : String) (v : α) :
    listGet (listSet m k v) k = some v := by
  induction m with
  | nil => simp [listSet, listGet]
  | cons hd tl ih =>
      obtain ⟨k', v'⟩ := hd
      by_cases h : k' = k
      · simp [listSet, listGet, h]
      · simp [listSet, listGet, h, ih]

theorem listGet_listSet_ne {α : Type} (m : List (String × α)) (k k' : String) (v : α)
    (h : k ≠ k') : listGet (listSet m k v) k' = listGet m k' := by
  induction m with
  | nil => simp [listSet, listGet, h]
  | cons hd tl ih =>
      obtain ⟨k₀, v₀⟩ := hd
      by_cases h₀ : k₀ = k
      · subst h₀; simp [listSet, listGet, h]
      · simp only [listSet, if_neg h₀, listGet]
        by_cases h₁ : k₀ = k'
        · simp [h₁]
        · simp [h₁, ih]

theorem listGet_listUpdate_self {α : Type} (m : List (String × α)) (k : String)
    (f : α → α) (v : α) (h : listGet m k = some v) :
    listGet (listUpdate m k f) k = some (f v) := by
  induction m with
  | nil => simp [listGet] at h
  | cons hd tl ih =>
      obtain ⟨k₀, v₀⟩ := hd
      by_cases h₀ : k₀ = k
      · subst h₀
        have h' : v₀ = v := by simpa [listGet] using h
        subst h'
        simp [listUpdate, listGet]
      · simp only [listGet, if_neg h₀] at h
        simp [listUpdate, listGet, h₀, ih h]

theorem listGet_listUpdate_ne {α : Type} (m : List (String × α)) (k k' : String)
    (f : α → α) (h : k ≠ k') : listGet (listUpdate m k f) k' = listGet m k' := by
  induction m with
  | nil => simp [listUpdate, listGet]
  | cons hd tl ih =>
      obtain ⟨k₀, v₀⟩ := hd
      by_cases h₀ : k₀ = k
      · subst h₀
        simp [listUpdate, listGet, h]
      · simp only [listUpdate, if_neg h₀, listGet]
        by_cases h₁ : k₀ = k'
        · simp [h₁]
        · simp [h₁, ih]

theorem listGet_isSome_listUpdate {α : Type} (m : List (String × α)) (k k' : String)
    (f : α → α) (v : α) (h : listGet m k' = some v) :
    ∃ w, listGet (listUpdate m k f) k' = some w := by
  by_cases hk : k = k'
  · subst hk
    exact ⟨f v, listGet_listUpdate_self m k f v h⟩
  · rw [listGet_listUpdate_ne m k k' f hk]
    exact ⟨v, h⟩

theorem listGet_none_of_not_mem_keys {α : Type} (m : List (String × α)) (k : String)
    (h : k ∉ m.map Prod.fst) : listGet m k = none := by
  induction m with
  | nil => simp [listGet]
  | cons hd tl ih =>
      obtain ⟨k₀, v₀⟩ := hd
      simp only [List.map_cons, List.mem_cons] at h
      push_neg at h
      have hne : ¬k₀ = k := fun hh => h.1 hh.symm
      simp [listGet, hne, ih h.2]

theorem listGet_filter {α : Type} (m : List (String × α)) (k : String) (v : α)
    (p : String × α → Bool) (hnd : (m.map Prod.fst).Nodup) (h : listGet m k = some v) :
    listGet (m.filter p) k = if p (k, v) then some v else none := by
  induction m with
  | nil => simp [listGet] at h
  | cons hd tl ih =>
      obtain ⟨k₀, v₀⟩ := hd
      simp only [List.map_cons, List.nodup_cons] at hnd
      by_cases h₀ : k₀ = k
      · subst h₀
        have h' : v₀ = v := by simpa [listGet] using h
        subst h'
        by_cases hp : p (k₀, v₀) = true
        · simp [List.filter, hp, listGet]
        · have hnone : listGet (tl.filter p) k₀ = none := by
            apply listGet_none_of_not_mem_keys
            intro hmem
            apply hnd.1
            obtain ⟨pr, hpr, hfst⟩ := List.mem_map.mp hmem
            exact hfst ▸ List.mem_map_of_mem Prod.fst (List.mem_of_mem_filter hpr)
          simp [List.filter, hp, hnone]
      · simp only [listGet, if_neg h₀] at h
        have hrec := ih hnd.2 h
        by_cases hp : p (k₀, v₀) = true
        · simp [List.filter, hp, listGet, h₀, hrec]
        · simp [List.filter, hp, hrec]

/-! ### `src/app/sentry_config.py` -/

namespace SentryConfig

/-- A Sentry event, restricted to the parts the hook touches: a `tags` dict of
strings and a `contexts` dict of string-keyed sub-dicts. -/
structure SentryEvent where
  tags : List (String × String)
  contexts : List (String × List (String × String))
  deriving DecidableEq, Repr

/-- `before_send_hook(event, hint)`: sets `tags['component']`,
`tags['test_project']` and `contexts['test_info']` on every event.  The
`setdefault` calls only ensure the dicts exist, which the model has by
construction. -/
def before_send_hook (event : SentryEvent) : SentryEvent :=
  let tags := listSet (listSet event.tags "component" "test-python") "test_project" "true"
  let contexts := listSet event.contexts "test_info"
    [("purpose", "Sentry development testing"), ("version", "1.0.0")]
  ⟨tags, contexts⟩

end SentryConfig

/-- C2 counterexample: on any event (here the empty one) the hook sets the
`component` tag to `"test-python"`, not `"test-project"` as claimed. -/
theorem C2_counterexample :
    listGet (SentryConfig.before_send_hook ⟨[], []⟩).tags "component" = some "test-python" ∧
    listGet (SentryConfig.before_send_hook ⟨[], []⟩).tags "component" ≠ some "test-project" := by
  constructor
  · rfl
  · intro h
    simp [SentryConfig.before_send_hook, listSet, listGet] at h

/-- C2 (amended): every event passed through `before_send_hook` leaves with tag
`component == "test-python"` and tag `test_project == "true"`, and with a
`test_info` context carrying `purpose` and `version`; the injection is applied
to every event without exception. -/
theorem C2_tag_injection (e : SentryConfig.SentryEvent) :
    listGet (SentryConfig.before_send_hook e).tags "component" = some "test-python" ∧
    listGet (SentryConfig.before_send_hook e).tags "test_project" = some "true" ∧
    listGet (SentryConfig.before_send_hook e).contexts "test_info" =
      some [("purpose", "Sentry development testing"), ("version", "1.0.0")] := by
  refine ⟨?_, ?_, ?_⟩
  · show listGet (listSet (listSet e.tags "component" "test-python") "test_project" "true")
      "component" = some "test-python"
    rw [listGet_listSet_ne _ _ _ _ (by decide)]
    exact listGet_listSet_self _ _ _
  · exact listGet_listSet_self _ _ _
  · exact listGet_listSet_self _ _ _

/-! ### `src/app/utils.py` -/

namespace Utils

/-- The global names bound at module level in `utils.py` (its `import` and
`from ... import` statements).  `time` is absent. -/
def utilsImportedNames : List String :=
  ["sentry_sdk", "re", "os", "json", "random", "datetime", "timedelta", "ValidationError"]

/-- Character class `[a-zA-Z0-9._%+-]` of the email regex local part. -/
def isLocalChar (c : Char) : Bool :=
  c.isAlphanum || c == '.' || c == '_' || c == '%' || c == '+' || c == '-'

/-- Character class `[a-zA-Z0-9.-]` of the email regex domain part. -/
def isDomainChar (c : Char) : Bool :=
  c.isAlphanum || c == '.' || c == '-'

/-- `[a-zA-Z]{2,}$`: at least two letters running to the end. -/
def tldOk (l : List Char) : Bool :=
  decide (2 ≤ l.length) && l.all Char.isAlpha

/-- Backtracking matcher for `[a-zA-Z0-9.-]+\.[a-zA-Z]{2,}$`: `seen` records
whether at least one domain character has been consumed before the separating
dot. -/
def domainMatchAux : Bool → List Char → Bool
  | _, [] => false
  | seen, c :: rest =>
      (seen && c == '.' && tldOk rest) || (isDomainChar c && domainMatchAux true rest)

/-- Backtracking matcher for `[a-zA-Z0-9._%+-]+@...`: `seen` records whether at
least one local-part character has been consumed before the `@`. -/
def emailMatchAux : Bool → List Char → Bool
  | _, [] => false
  | seen, c :: rest =>
      (seen && c == '@' && domainMatchAux false rest) || (isLocalChar c && emailMatchAux true rest)

/-- The regex `^[a-zA-Z0-9._%+-]+@[a-zA-Z0-9.-]+\.[a-zA-Z]{2,}$` from
`validate_email`, as a matcher over the string's characters. -/
def emailMatch (email : String) : Bool :=
  emailMatchAux false email.data

/-- `validate_email`, with the fault probability `p` (the source hardcodes
`0.05`) and the `random.random()` draw `r` explicit.  Checks, in source order:
empty email, fault draw, regex. -/
def validate_emailP (p r : ℚ) (email : String) : Except PyError Bool :=
  if email = "" then .error (.validationError "Email cannot be empty")
  else if should_fail p r then .error (.validationError "Email validation service unavailable")
  else if !emailMatch email then .error (.validationError "Invalid email format")
  else .ok true

/-- `validate_email` at the source's fault probability `0.05`. -/
def validate_email (r : ℚ) (email : String) : Except PyError Bool :=
  validate_emailP (5/100) r email

/-- The `multipliers` dict of `calculate_discount` with its `.get(user_type, 1.0)`
default. -/
def multiplierOf (user_type : String) : ℚ :=
  (([("regular", (1 : ℚ)), ("premium", 11/10), ("vip", 12/10)]).lookup user_type).getD 1

/-- `calculate_discount`, with fault probability `p` (source: `0.03`) and draw
`r` explicit; Python floats modelled as exact rationals. -/
def calculate_discountP (p r : ℚ) (price discount_percent : ℚ) (user_type : String) :
    Except PyError Payload :=
  if price < 0 then .error (.valueError "Price cannot be negative")
  else if discount_percent < 0 ∨ discount_percent > 100 then
    .error (.valueError "Discount percent must be between 0 and 100")
  else if should_fail p r then .error (.valueError "Discount calculation service error")
  else
    let base_discount := price * (discount_percent / 100)
    let final_discount := base_discount * multiplierOf user_type
    .ok [("original_price", .q price), ("discount_percent", .q discount_percent),
         ("discount_amount", .q final_discount), ("final_price", .q (price - final_discount)),
         ("user_type", .s user_type)]

/-- `calculate_discount` at the source's fault probability `0.03`. -/
def calculate_discount (r : ℚ) (price discount_percent : ℚ) (user_type : String) :
    Except PyError Payload :=
  calculate_discountP (3/100) r price discount_percent user_type

/-- `process_file`, with draw `r`, the file system observations (`os.path.exists`,
`os.path.getsize`) and the timestamp passed in.  On the success path the source
calls `time.sleep`, and `time` is looked up among the module globals: absent,
the lookup raises `NameError`, which the blanket `except Exception` handler
wraps into `Exception("File processing failed: ...")`. -/
def process_file (r : ℚ) (file_path : String) (path_exists : Bool) (file_size : ℕ)
    (now : String) : Except PyError Payload :=
  if file_path = "" then .error (.valueError "File path cannot be empty")
  else if should_fail (1/10) r then
    .error (.fileNotFoundError "File system temporarily unavailable")
  else if !path_exists then .error (.fileNotFoundError ("File not found: " ++ file_path))
  else if utilsImportedNames.contains "time" then
    let processing_time := min ((file_size : ℚ) / 1000000) 5
    .ok [("file_path", .s file_path), ("file_size", .n file_size),
         ("processing_time", .q processing_time), ("status", .s "processed"),
         ("timestamp", .s now)]
  else .error (.exceptionError "File processing failed: name 'time' is not defined")

/-- `generate_report`, with draw `r` explicit; `data` is modelled as a Python
list.  As in `process_file`, the success path's `time.sleep(random.uniform(1, 3))`
fails at the lookup of the name `time` (before the `uniform` draw is even
consumed), and the `NameError` is wrapped by the blanket handler into
`Exception("Report generation failed: ...")`. -/
def generate_report (r : ℚ) (data : List PyVal) (report_type : String) (now : String) :
    Except PyError Payload :=
  if data = [] then .error (.valueError "No data provided for report generation")
  else if should_fail (7/100) r then .error (.valueError "Report generation service error")
  else if utilsImportedNames.contains "time" then
    .ok [("report_type", .s report_type), ("data_points", .n data.length),
         ("generated_at", .s now)]
  else .error (.exceptionError "Report generation failed: name 'time' is not defined")

/-- `cleanup_old_data` (the `utils.py` one), with draw `r`, the
`random.uniform(0.5, 2.0)` and `random.randint(10, 1000)` draws, and the
computed dates passed in.  Its success path also calls `time.sleep`, so the
`NameError` is wrapped into `Exception("Data cleanup failed: ...")`. -/
def cleanup_old_data (r : ℚ) (data_type : String) (older_than_days : ℤ)
    (records_d : ℕ) (cutoff now : String) : Except PyError Payload :=
  if data_type = "" then .error (.valueError "Data type cannot be empty")
  else if older_than_days < 0 then .error (.valueError "Days must be positive")
  else if should_fail (8/100) r then .error (.valueError "Data cleanup service error")
  else if utilsImportedNames.contains "time" then
    .ok [("data_type", .s data_type), ("cutoff_date", .s cutoff),
         ("records_cleaned", .n records_d), ("cleanup_status", .s "completed"),
         ("cleaned_at", .s now)]
  else .error (.exceptionError "Data cleanup failed: name 'time' is not defined")

end Utils

/-- C4 counterexample: for the malformed email `"bad"` the outcome depends on
the fault draw — the regex check runs only after `random.random()` is consulted,
so with the fault firing the precondition failure message never appears. -/
theorem C4_counterexample :
    Utils.validate_email (1/100) "bad" =
      .error (.validationError "Email validation service unavailable") ∧
    Utils.validate_email (1/2) "bad" = .error (.validationError "Invalid email format") := by
  have h1 : should_fail (5/100) (1/100 : ℚ) = true := by norm_num [should_fail]
  have h2 : should_fail (5/100) (1/2 : ℚ) = false := by norm_num [should_fail]
  have h3 : Utils.emailMatch "bad" = false := by decide
  constructor
  · simp only [Utils.validate_email, Utils.validate_emailP, h1, h3]
    simp
  · simp only [Utils.validate_email, Utils.validate_emailP, h2, h3]
    simp

/-- C4 (amended): the deterministic checks for negative price, out-of-range
discount and empty email precede the fault draw and fail identically for every
draw and probability; the malformed-email regex check, however, runs after the
draw, so a malformed nonempty email always fails with a `ValidationError` but
with a message that depends on the draw. -/
theorem C4_validation_before_fault (p r : ℚ) (price dp : ℚ) (ut email : String) :
    (price < 0 →
      Utils.calculate_discountP p r price dp ut = .error (.valueError "Price cannot be negative")) ∧
    (0 ≤ price → (dp < 0 ∨ 100 < dp) →
      Utils.calculate_discountP p r price dp ut =
        .error (.valueError "Discount percent must be between 0 and 100")) ∧
    (Utils.validate_emailP p r "" = .error (.validationError "Email cannot be empty")) ∧
    (email ≠ "" → Utils.emailMatch email = false →
      Utils.validate_emailP p r email =
        .error (.validationError
          (if should_fail p r then "Email validation service unavailable"
           else "Invalid email format"))) := by
  refine ⟨?_, ?_, ?_, ?_⟩
  · intro h
    simp [Utils.calculate_discountP, h]
  · intro h0 h1
    have hor : dp < 0 ∨ dp > 100 := h1
    simp [Utils.calculate_discountP, not_lt.mpr h0, hor]
  · rfl
  · intro h1 h2
    by_cases hf : should_fail p r = true
    · simp [Utils.validate_emailP, h1, hf]
    · simp only [Bool.not_eq_true] at hf
      simp [Utils.validate_emailP, h1, hf, h2]

/-- C4 witness: `C4_validation_before_fault` at `p = 1/2`, `r = 1/4`,
`price = -1`, email `"bad"`. -/
theorem C4_witness :
    ((-1 : ℚ) < 0) ∧
    Utils.calculate_discountP (1/2) (1/4) (-1) 10 "regular" =
      .error (.valueError "Price cannot be negative") ∧
    ("bad" ≠ "") ∧ Utils.emailMatch "bad" = false ∧
    Utils.validate_emailP (1/2) (1/4) "bad" =
      .error (.validationError
        (if should_fail (1/2) (1/4) then "Email validation service unavailable"
         else "Invalid email format")) := by
  refine ⟨by norm_num,
    (C4_validation_before_fault (1/2) (1/4) (-1) 10 "regular" "bad").1 (by norm_num),
    by decide, by decide,
    (C4_validation_before_fault (1/2) (1/4) (-1) 10 "regular" "bad").2.2.2 (by decide) (by decide)⟩

/-- C5 counterexample: on a valid input with the fault not firing,
`process_file` raises the blanket-handler wrapper
`Exception("File processing failed: name 'time' is not defined")`, not an
unhandled `NameError`. -/
theorem C5_counterexample :
    Utils.process_file (1/2) "/tmp/data.txt" true 1000 "t0" =
      .error (.exceptionError "File processing failed: name 'time' is not defined") ∧
    Utils.process_file (1/2) "/tmp/data.txt" true 1000 "t0" ≠
      .error (.nameError "name 'time' is not defined") := by
  have h : should_fail (1/10) (1/2 : ℚ) = false := by norm_num [should_fail]
  have h1 : Utils.process_file (1/2) "/tmp/data.txt" true 1000 "t0" =
      .error (.exceptionError "File processing failed: name 'time' is not defined") := by
    simp only [Utils.process_file, h]
    simp [Utils.utilsImportedNames]
  refine ⟨h1, ?_⟩
  rw [h1]
  intro hcontra
  simp at hcontra

/-- C5 (amended): the `utils.py` module never binds the name `time`, so on
every input that passes validation with the fault draw not firing,
`process_file`, `generate_report` and `cleanup_old_data` hit the `NameError`
from `time.sleep`, which their blanket `except Exception` handler wraps and
re-raises as a generic `Exception("<op> failed: name 'time' is not defined")` —
the documented success payload is never returned. -/
theorem C5_time_unbound :
    Utils.utilsImportedNames.contains "time" = false ∧
    (∀ (r : ℚ) (path : String) (size : ℕ) (now : String), path ≠ "" →
      should_fail (1/10) r = false →
      Utils.process_file r path true size now =
        .error (.exceptionError "File processing failed: name 'time' is not defined")) ∧
    (∀ (r : ℚ) (data : List PyVal) (rt now : String), data ≠ [] →
      should_fail (7/100) r = false →
      Utils.generate_report r data rt now =
        .error (.exceptionError "Report generation failed: name 'time' is not defined")) ∧
    (∀ (r : ℚ) (dt : String) (days : ℤ) (rd : ℕ) (cutoff now : String), dt ≠ "" →
      0 ≤ days → should_fail (8/100) r = false →
      Utils.cleanup_old_data r dt days rd cutoff now =
        .error (.exceptionError "Data cleanup failed: name 'time' is not defined")) := by
  refine ⟨by decide, ?_, ?_, ?_⟩
  · intro r path size now hpath hf
    simp only [Utils.process_file, hf]
    simp [hpath, Utils.utilsImportedNames]
  · intro r data rt now hdata hf
    simp only [Utils.generate_report, hf]
    simp [hdata, Utils.utilsImportedNames]
  · intro r dt days rd cutoff now hdt hdays hf
    simp only [Utils.cleanup_old_data, hf]
    simp [hdt, not_lt.mpr hdays, Utils.utilsImportedNames]

/-- C5 witness: `C5_time_unbound` instantiated at concrete valid inputs with
the fault draw `1/5`, which fires none of the three fault checks. -/
theorem C5_witness :
    ("/tmp/data.txt" ≠ "") ∧ should_fail (1/10) (1/5 : ℚ) = false ∧
    Utils.process_file (1/5) "/tmp/data.txt" true 1000 "t0" =
      .error (.exceptionError "File processing failed: name 'time' is not defined") ∧
    Utils.generate_report (1/5) [.n 1] "summary" "t0" =
      .error (.exceptionError "Report generation failed: name 'time' is not defined") ∧
    Utils.cleanup_old_data (1/5) "logs" 30 10 "c0" "t0" =
      .error (.exceptionError "Data cleanup failed: name 'time' is not defined") := by
  refine ⟨by decide, by norm_num [should_fail],
    C5_time_unbound.2.1 (1/5) "/tmp/data.txt" 1000 "t0" (by decide) (by norm_num [should_fail]),
    C5_time_unbound.2.2.1 (1/5) [.n 1] "summary" "t0" (by decide) (by norm_num [should_fail]),
    C5_time_unbound.2.2.2 (1/5) "logs" 30 10 "c0" "t0" (by decide) (by norm_num)
      (by norm_num [should_fail])⟩

/-- C6 (confirmed): for valid inputs with the fault draw not firing,
`calculate_discount` returns the payload with
`discount_amount = price * (discount_percent/100) * multiplier(user_type)` and
`final_price = price - discount_amount`, where the multiplier is `1` for
`"regular"`, `11/10` for `"premium"`, `12/10` for `"vip"` and `1` for unknown
types (arithmetic modelled with exact rationals). -/
theorem C6_calculate_discount (r price dp : ℚ) (ut : String)
    (hp : 0 ≤ price) (hd0 : 0 ≤ dp) (hd1 : dp ≤ 100)
    (hf : should_fail (3/100) r = false) :
    Utils.calculate_discount r price dp ut =
      .ok [("original_price", .q price), ("discount_percent", .q dp),
           ("discount_amount", .q (price * (dp / 100) * Utils.multiplierOf ut)),
           ("final_price", .q (price - price * (dp / 100) * Utils.multiplierOf ut)),
           ("user_type", .s ut)] ∧
    Utils.multiplierOf "regular" = 1 ∧ Utils.multiplierOf "premium" = 11/10 ∧
    Utils.multiplierOf "vip" = 12/10 ∧
    (ut ∉ ["regular", "premium", "vip"] → Utils.multiplierOf ut = 1) := by
  refine ⟨?_, by simp [Utils.multiplierOf, List.lookup],
    by simp [Utils.multiplierOf, List.lookup], by simp [Utils.multiplierOf, List.lookup], ?_⟩
  · have hor : ¬(dp < 0 ∨ dp > 100) := by
      push_neg
      exact ⟨hd0, hd1⟩
    simp only [Utils.calculate_discount, Utils.calculate_discountP, hf]
    simp [not_lt.mpr hp, hor]
  · intro h
    simp only [List.mem_cons, List.not_mem_nil, or_false, not_or] at h
    obtain ⟨h1, h2, h3⟩ := h
    have b1 : (ut == "regular") = false := by simp [h1]
    have b2 : (ut == "premium") = false := by simp [h2]
    have b3 : (ut == "vip") = false := by simp [h3]
    simp [Utils.multiplierOf, List.lookup, b1, b2, b3]

/-- C6 witness: `price = 100`, `discount_percent = 10`, `user_type = "vip"`,
draw `1/2`: `discount_amount = 12` and `final_price = 88`. -/
theorem C6_witness :
    (0 : ℚ) ≤ 100 ∧ (0 : ℚ) ≤ 10 ∧ (10 : ℚ) ≤ 100 ∧
    should_fail (3/100) (1/2 : ℚ) = false ∧
    Utils.calculate_discount (1/2) 100 10 "vip" =
      .ok [("original_price", .q 100), ("discount_percent", .q 10),
           ("discount_amount", .q 12), ("final_price", .q 88), ("user_type", .s "vip")] := by
  refine ⟨by norm_num, by norm_num, by norm_num, by norm_num [should_fail], ?_⟩
  have h := (C6_calculate_discount (1/2) 100 10 "vip" (by norm_num) (by norm_num)
    (by norm_num) (by norm_num [should_fail])).1
  rw [h]
  have e1 : ("vip" == "regular") = false := by decide
  have e2 : ("vip" == "premium") = false := by decide
  norm_num [Utils.multiplierOf, List.lookup, e1, e2]

/-! ### `src/app/external_apis.py` -/

namespace ExternalApis

/-- `process_payment`, with the fault probability `p` (source: `0.2`), the
`random.random()` draw `r`, the `random.randint(100000, 999999)` transaction-id
draw `txn_d` and the `time.time()` timestamp made explicit.  The
`time.sleep(random.uniform(0.5, 2.0))` latency delay is not modelled (spec:
latency only blocks the caller). -/
def process_paymentP (p r : ℚ) (txn_d : ℕ) (now : ℚ) (card_number : String) (amount : ℚ) :
    Except PyError Payload :=
  if card_number = "" ∨ card_number.length < 10 then
    .error (.paymentError "Invalid card number")
  else if amount ≤ 0 then .error (.paymentError "Invalid payment amount")
  else if amount > 10000 then .error (.paymentError "Payment amount exceeds limit")
  else if should_fail p r then .error (.paymentError "Payment gateway temporarily unavailable")
  else .ok [("transaction_id", .s ("txn_" ++ Nat.repr txn_d)), ("amount", .q amount),
            ("status", .s "success"), ("timestamp", .q now)]

/-- `process_payment` at the source's fault probability `0.2`. -/
def process_payment (r : ℚ) (txn_d : ℕ) (now : ℚ) (card_number : String) (amount : ℚ) :
    Except PyError Payload :=
  process_paymentP (2/10) r txn_d now card_number amount

end ExternalApis

/-- C7 (confirmed): the fault check is `draw < probability` on a draw in
`[0, 1)`, so at probability `0` the designated fault never fires and at
probability `1` it always fires — shown for the fault policy itself and for
`process_payment`, `validate_email` and `calculate_discount` on valid
inputs. -/
theorem C7_probability_extremes (r : ℚ) (h0 : 0 ≤ r) (h1 : r < 1) :
    should_fail 0 r = false ∧ should_fail 1 r = true ∧
    (∀ (txn : ℕ) (now : ℚ) (card : String) (amount : ℚ),
      card ≠ "" → 10 ≤ card.length → 0 < amount → amount ≤ 10000 →
      ExternalApis.process_paymentP 0 r txn now card amount =
        .ok [("transaction_id", .s ("txn_" ++ Nat.repr txn)), ("amount", .q amount),
             ("status", .s "success"), ("timestamp", .q now)] ∧
      ExternalApis.process_paymentP 1 r txn now card amount =
        .error (.paymentError "Payment gateway temporarily unavailable")) ∧
    (∀ email : String, email ≠ "" →
      Utils.validate_emailP 1 r email =
        .error (.validationError "Email validation service unavailable")) ∧
    (∀ email : String, email ≠ "" → Utils.emailMatch email = true →
      Utils.validate_emailP 0 r email = .ok true) ∧
    (∀ (price dp : ℚ) (ut : String), 0 ≤ price → 0 ≤ dp → dp ≤ 100 →
      Utils.calculate_discountP 1 r price dp ut =
        .error (.valueError "Discount calculation service error")) := by
  have hsf0 : should_fail 0 r = false := by
    simp [should_fail]
    linarith
  have hsf1 : should_fail 1 r = true := by
    simp [should_fail]
    linarith
  refine ⟨hsf0, hsf1, ?_, ?_, ?_, ?_⟩
  · intro txn now card amount hcard hlen hpos hmax
    have hc : ¬(card = "" ∨ card.length < 10) := by
      push_neg
      exact ⟨hcard, not_lt.mp (by simpa using not_lt.mpr hlen)⟩
    constructor
    · simp only [ExternalApis.process_paymentP, hsf0]
      simp [hc, not_le.mpr hpos, not_lt.mpr hmax]
    · simp only [ExternalApis.process_paymentP, hsf1]
      simp [hc, not_le.mpr hpos, not_lt.mpr hmax]
  · intro email hne
    simp only [Utils.validate_emailP, hsf1]
    simp [hne]
  · intro email hne hmatch
    simp only [Utils.validate_emailP, hsf0]
    simp [hne, hmatch]
  · intro price dp ut hp hd0 hd1
    have hor : ¬(dp < 0 ∨ dp > 100) := by
      push_neg
      exact ⟨hd0, hd1⟩
    simp only [Utils.calculate_discountP, hsf1]
    simp [not_lt.mpr hp, hor]

/-- C7 witness: draw `1/2` with a valid card and amount. -/
theorem C7_witness :
    (0 : ℚ) ≤ 1/2 ∧ (1/2 : ℚ) < 1 ∧
    ExternalApis.process_paymentP 0 (1/2) 111111 0 "1234567890" 50 =
      .ok [("transaction_id", .s "txn_111111"), ("amount", .q 50),
           ("status", .s "success"), ("timestamp", .q 0)] ∧
    ExternalApis.process_paymentP 1 (1/2) 111111 0 "1234567890" 50 =
      .error (.paymentError "Payment gateway temporarily unavailable") := by
  have h := C7_probability_extremes (1/2) (by norm_num) (by norm_num)
  have hp := h.2.2.1 111111 0 "1234567890" 50 (by decide) (by decide) (by norm_num) (by norm_num)
  exact ⟨by norm_num, by norm_num, hp.1, hp.2⟩

/-! ### `src/app/background_tasks.py` -/

namespace BackgroundTasks

/-- `send_email_async`, with the fault draw `r` and timestamp explicit (the
`time.sleep(random.uniform(1, 3))` delay is not modelled). -/
def send_email_async (r : ℚ) (email subject body : String) (now : String) :
    Except PyError Payload :=
  if should_fail (15/100) r then
    .error (.externalAPIError "Email service temporarily unavailable")
  else .ok [("email", .s email), ("subject", .s subject), ("status", .s "sent"),
            ("sent_at", .s now)]

/-- `cleanup_old_data` (the `background_tasks.py` one), with the fault draw and
the `random.randint(100, 5000)` record count explicit. -/
def cleanup_old_data (r : ℚ) (records_d : ℕ) (data_type : String) (now : String) :
    Except PyError Payload :=
  if should_fail (1/10) r then .error (.exceptionError "Cleanup service error")
  else .ok [("data_type", .s data_type), ("records_cleaned", .n records_d),
            ("status", .s "completed"), ("cleaned_at", .s now)]

/-- `process_large_dataset`, with the fault draw and the
`random.randint(10000, 100000)` record count explicit. -/
def process_large_dataset (r : ℚ) (records_d : ℕ) (dataset_id : String) (now : String) :
    Except PyError Payload :=
  if should_fail (5/100) r then .error (.exceptionError "Dataset processing service error")
  else .ok [("dataset_id", .s dataset_id), ("records_processed", .n records_d),
            ("status", .s "completed"), ("processed_at", .s now)]

/-- `generate_report_async`, with the fault draw and the
`random.randint(100000, 999999)` report-id draw explicit. -/
def generate_report_async (r : ℚ) (report_d : ℕ) (report_type : String)
    (data_filters : PyVal) (now : String) : Except PyError Payload :=
  if should_fail (8/100) r then .error (.exceptionError "Report generation service error")
  else .ok [("report_type", .s report_type), ("filters", data_filters),
            ("report_id", .s ("report_" ++ Nat.repr report_d)),
            ("status", .s "completed"), ("generated_at", .s now)]

/-- `sync_external_data`, with the fault draw and the
`random.randint(500, 5000)` record count explicit. -/
def sync_external_data (r : ℚ) (records_d : ℕ) (sync_type : String) (now : String) :
    Except PyError Payload :=
  if should_fail (12/100) r then .error (.externalAPIError "External sync service error")
  else .ok [("sync_type", .s sync_type), ("records_synced", .n records_d),
            ("status", .s "completed"), ("synced_at", .s now)]

/-- The ambient inputs of one background execution: the random draws consumed
by whichever simulator runs, and the `*args` each dispatch branch would pass
along. -/
structure TaskEnv where
  r : ℚ
  countDraw : ℕ
  email : String
  subject : String
  body : String
  data_type : String
  dataset_id : String
  report_type : String
  data_filters : PyVal
  sync_type : String
  now : String
  deriving DecidableEq, Repr

/-- The task names `run_background_task` dispatches on. -/
def knownTaskNames : List String :=
  ["send_email", "cleanup_data", "process_dataset", "generate_report", "sync_data"]

/-- `run_background_task(task_name, *args, **kwargs)`: dispatch to the named
simulator, `ValueError("Unknown task: ...")` on any other name. -/
def run_background_task (env : TaskEnv) (task_name : String) : Except PyError Payload :=
  if task_name = "send_email" then
    send_email_async env.r env.email env.subject env.body env.now
  else if task_name = "cleanup_data" then
    cleanup_old_data env.r env.countDraw env.data_type env.now
  else if task_name = "process_dataset" then
    process_large_dataset env.r env.countDraw env.dataset_id env.now
  else if task_name = "generate_report" then
    generate_report_async env.r env.countDraw env.report_type env.data_filters env.now
  else if task_name = "sync_data" then
    sync_external_data env.r env.countDraw env.sync_type env.now
  else .error (.valueError ("Unknown task: " ++ task_name))

/-- TaskStatus: the four status strings a record can hold
(`'pending' | 'completed' | 'failed' | 'cancelled'`). -/
inductive TaskStatus where
  | pending
  | completed
  | failed
  | cancelled
  deriving DecidableEq, Repr

/-- `status in ['completed', 'failed', 'cancelled']` (the
`cleanup_completed_tasks` sweep condition; these are the terminal states). -/
def isTerminal : TaskStatus → Bool
  | .completed => true
  | .failed => true
  | .cancelled => true
  | .pending => false

/-- One entry of `BackgroundTaskManager.active_tasks`: the dict inserted by
`start_task`, with the `result`/`error` keys that the completion callback may
add modelled as options. -/
structure TaskRecord where
  task_name : String
  started_at : String
  status : TaskStatus
  result : Option Payload
  error : Option String
  deriving DecidableEq, Repr

/-- The `active_tasks` dict of the manager. -/
abbrev Registry := List (String × TaskRecord)

/-- `start_task(task_name, *args, **kwargs)`: builds
`task_id = f"task_{random.randint(100000, 999999)}"` from the draw `d`, inserts
a `pending` record, spawns the execution thread, and returns the id.  The
spawned thread's effect is modelled separately by `finish_task`. -/
def start_task (task_name : String) (d : ℕ) (now : String) (reg : Registry) :
    String × Registry :=
  let task_id := "task_" ++ Nat.repr d
  (task_id, listSet reg task_id ⟨task_name, now, .pending, none, none⟩)

/-- The body of the spawned `run_task` thread after `run_background_task`
returns or raises: on success it sets `status = 'completed'` and `result`, on
exception `status = 'failed'` and `error = str(e)`.  If the record was deleted
in the meantime, the dict writes raise `KeyError` (inside and then outside the
`except` block), leaving the registry unchanged. -/
def finish_task (task_id : String) (outcome : Except PyError Payload) (reg : Registry) :
    Registry :=
  match listGet reg task_id with
  | none => reg
  | some _ =>
      match outcome with
      | .ok res => listUpdate reg task_id (fun rec => { rec with status := .completed, result := some res })
      | .error e => listUpdate reg task_id (fun rec => { rec with status := .failed, error := some e.str })

/-- `get_task_status(task_id)`: `ValueError` when absent, else the status view. -/
def get_task_status (task_id : String) (reg : Registry) :
    Except PyError (TaskStatus × Option Payload × Option String) :=
  match listGet reg task_id with
  | none => .error (.valueError ("Task " ++ task_id ++ " not found"))
  | some rec => .ok (rec.status, rec.result, rec.error)

/-- `cancel_task(task_id)`: `ValueError` when absent; otherwise unconditionally
overwrites the status with `'cancelled'`. -/
def cancel_task (task_id : String) (reg : Registry) : Except PyError Registry :=
  match listGet reg task_id with
  | none => .error (.valueError ("Task " ++ task_id ++ " not found"))
  | some _ => .ok (listUpdate reg task_id (fun rec => { rec with status := .cancelled }))

/-- `cleanup_completed_tasks()`: deletes every record whose status is terminal
and returns how many were deleted. -/
def cleanup_completed_tasks (reg : Registry) : ℕ × Registry :=
  ((reg.filter (fun p => isTerminal p.2.status)).length,
   reg.filter (fun p => !isTerminal p.2.status))

/-- One interleaving step against the registry: a `start_task` call, the
completion of a spawned execution, a `cancel_task` call (a failed call leaves
the registry unchanged), or a `cleanup_completed_tasks` sweep. -/
inductive RegStep where
  | start (task_name : String) (d : ℕ) (now : String)
  | finish (task_id : String) (outcome : Except PyError Payload)
  | cancel (task_id : String)
  | cleanup

/-- Effect of one step on the registry. -/
def applyStep : RegStep → Registry → Registry
  | .start task_name d now, reg => (start_task task_name d now reg).2
  | .finish task_id outcome, reg => finish_task task_id outcome reg
  | .cancel task_id, reg =>
      match cancel_task task_id reg with
      | .ok reg' => reg'
      | .error _ => reg
  | .cleanup, reg => (cleanup_completed_tasks reg).2

end BackgroundTasks

/-- A sample background-execution environment for concrete instantiations. -/
def sampleEnv : BackgroundTasks.TaskEnv :=
  ⟨1/2, 7, "a@b.co", "subj", "hello", "logs", "ds1", "summary", .s "none", "full", "t0"⟩

/-- C1 counterexample: `start_task("bogus", ...)` does return a task id and
does insert a `pending` record; the "Unknown task" `ValueError` is only raised
by `run_background_task` inside the spawned thread. -/
theorem C1_counterexample :
    (BackgroundTasks.start_task "bogus" 123456 "t0" []).1 = "task_123456" ∧
    listGet (BackgroundTasks.start_task "bogus" 123456 "t0" []).2 "task_123456" =
      some ⟨"bogus", "t0", .pending, none, none⟩ ∧
    BackgroundTasks.run_background_task sampleEnv "bogus" =
      .error (.valueError "Unknown task: bogus") := by
  refine ⟨rfl, by decide, rfl⟩

/-- C1 (amended): for a task name outside the known simulator set, `start_task`
still inserts a `pending` record and returns a non-empty task id; the
`ValueError("Unknown task: ...")` is raised asynchronously by the spawned
execution, after which the record's status is `failed` with that message as its
error. -/
theorem C1_unknown_task (task_name : String)
    (hname : task_name ∉ BackgroundTasks.knownTaskNames) (d : ℕ) (now : String)
    (reg : BackgroundTasks.Registry) (env : BackgroundTasks.TaskEnv) :
    (BackgroundTasks.start_task task_name d now reg).1 ≠ "" ∧
    listGet (BackgroundTasks.start_task task_name d now reg).2
      (BackgroundTasks.start_task task_name d now reg).1 =
      some ⟨task_name, now, .pending, none, none⟩ ∧
    BackgroundTasks.run_background_task env task_name =
      .error (.valueError ("Unknown task: " ++ task_name)) ∧
    listGet
      (BackgroundTasks.finish_task (BackgroundTasks.start_task task_name d now reg).1
        (BackgroundTasks.run_background_task env task_name)
        (BackgroundTasks.start_task task_name d now reg).2)
      (BackgroundTasks.start_task task_name d now reg).1 =
      some ⟨task_name, now, .failed, none, some ("Unknown task: " ++ task_name)⟩ := by
  simp only [BackgroundTasks.knownTaskNames, List.mem_cons, List.not_mem_nil, or_false,
    not_or] at hname
  obtain ⟨h1, h2, h3, h4, h5⟩ := hname
  have hne : ("task_" ++ Nat.repr d) ≠ "" := by
    intro h
    have hlen := congrArg String.length h
    simp [String.length_append] at hlen
    exact absurd hlen.1 (by decide)
  have hrun : BackgroundTasks.run_background_task env task_name =
      .error (.valueError ("Unknown task: " ++ task_name)) := by
    simp [BackgroundTasks.run_background_task, h1, h2, h3, h4, h5]
  have hlook : listGet (BackgroundTasks.start_task task_name d now reg).2
      (BackgroundTasks.start_task task_name d now reg).1 =
      some ⟨task_name, now, .pending, none, none⟩ := listGet_listSet_self _ _ _
  refine ⟨hne, hlook, hrun, ?_⟩
  rw [hrun]
  simp only [BackgroundTasks.finish_task, hlook]
  rw [listGet_listUpdate_self _ _ _ _ hlook]
  simp [PyError.str]

/-- C1 witness: `C1_unknown_task` at name `"bogus"`, draw `1`, empty registry. -/
theorem C1_witness :
    "bogus" ∉ BackgroundTasks.knownTaskNames ∧
    (BackgroundTasks.start_task "bogus" 1 "t0" []).1 ≠ "" ∧
    listGet (BackgroundTasks.start_task "bogus" 1 "t0" []).2
      (BackgroundTasks.start_task "bogus" 1 "t0" []).1 =
      some ⟨"bogus", "t0", .pending, none, none⟩ ∧
    BackgroundTasks.run_background_task sampleEnv "bogus" =
      .error (.valueError ("Unknown task: " ++ "bogus")) ∧
    listGet
      (BackgroundTasks.finish_task (BackgroundTasks.start_task "bogus" 1 "t0" []).1
        (BackgroundTasks.run_background_task sampleEnv "bogus")
        (BackgroundTasks.start_task "bogus" 1 "t0" []).2)
      (BackgroundTasks.start_task "bogus" 1 "t0" []).1 =
      some ⟨"bogus", "t0", .failed, none, some ("Unknown task: " ++ "bogus")⟩ := by
  have h := C1_unknown_task "bogus" (by decide) 1 "t0" [] sampleEnv
  exact ⟨by decide, h.1, h.2.1, h.2.2.1, h.2.2.2⟩

/-- C8 counterexample: two distinct `start_task` invocations whose
`random.randint` draws coincide return the same task id, and the second insert
overwrites the record of the first. -/
theorem C8_counterexample :
    (BackgroundTasks.start_task "send_email" 100000 "t0" []).1 =
      (BackgroundTasks.start_task "cleanup_data" 100000 "t1"
        (BackgroundTasks.start_task "send_email" 100000 "t0" []).2).1 ∧
    listGet (BackgroundTasks.start_task "cleanup_data" 100000 "t1"
        (BackgroundTasks.start_task "send_email" 100000 "t0" []).2).2 "task_100000" =
      some ⟨"cleanup_data", "t1", .pending, none, none⟩ := by
  exact ⟨rfl, by decide⟩

/-- C8 (amended): the task identifier is `task_` followed by the decimal
`randint` draw — distinct invocations collide exactly when their draws print
alike — and immediately after any `start_task` call the returned id is
non-empty and the newly inserted record has status `pending`. -/
theorem C8_start_task_pending (task_name : String) (d : ℕ) (now : String)
    (reg : BackgroundTasks.Registry) :
    (BackgroundTasks.start_task task_name d now reg).1 = "task_" ++ Nat.repr d ∧
    (BackgroundTasks.start_task task_name d now reg).1 ≠ "" ∧
    listGet (BackgroundTasks.start_task task_name d now reg).2
      (BackgroundTasks.start_task task_name d now reg).1 =
      some ⟨task_name, now, .pending, none, none⟩ := by
  refine ⟨rfl, ?_, listGet_listSet_self _ _ _⟩
  intro h
  rw [show (BackgroundTasks.start_task task_name d now reg).1 = "task_" ++ Nat.repr d
    from rfl] at h
  have hlen := congrArg String.length h
  simp [String.length_append] at hlen
  exact absurd hlen.1 (by decide)

/-- C9 (confirmed): `cleanup_completed_tasks` keeps exactly the records whose
status is not terminal (so every `pending` record survives unchanged), returns
the number removed, and a second sweep with no intervening changes removes
nothing. -/
theorem C9_cleanup_exact (reg : BackgroundTasks.Registry) :
    (∀ p : String × BackgroundTasks.TaskRecord,
      p ∈ (BackgroundTasks.cleanup_completed_tasks reg).2 ↔
        p ∈ reg ∧ BackgroundTasks.isTerminal p.2.status = false) ∧
    (BackgroundTasks.cleanup_completed_tasks reg).1 +
      (BackgroundTasks.cleanup_completed_tasks reg).2.length = reg.length ∧
    (BackgroundTasks.cleanup_completed_tasks
      ((BackgroundTasks.cleanup_completed_tasks reg).2)).1 = 0 := by
  refine ⟨?_, ?_, ?_⟩
  · intro p
    simp [BackgroundTasks.cleanup_completed_tasks, List.mem_filter]
  · simp only [BackgroundTasks.cleanup_completed_tasks]
    exact (List.length_eq_length_filter_add
      (fun p : String × BackgroundTasks.TaskRecord => BackgroundTasks.isTerminal p.2.status)).symm
  · simp [BackgroundTasks.cleanup_completed_tasks, List.filter_filter]

/-- C3 counterexample: `cancel_task` on a record already in the terminal state
`completed` moves its status to `cancelled` — terminal states are left without
deletion. -/
theorem C3_counterexample :
    BackgroundTasks.isTerminal .completed = true ∧
    listGet (BackgroundTasks.applyStep (.cancel "task_1")
        [("task_1", ⟨"send_email", "t0", .completed, none, none⟩)]) "task_1" =
      some ⟨"send_email", "t0", .cancelled, none, none⟩ := by
  exact ⟨rfl, by decide⟩

section
open BackgroundTasks

/-- C3 (amended): a record disappears from the registry only through a
`cleanup_completed_tasks` sweep (and then only from a terminal state), and a
surviving record's status after any step either is unchanged, or was
overwritten to `cancelled` (by `cancel_task`, from any state), to `completed`
or `failed` (by a late execution callback, from any state), or back to
`pending` (by an id-colliding `start_task` replacing the record).  In
particular terminal states are not sticky, but no step reverts a record it
does not replace to `pending`. -/
theorem C3_status_transitions (s : RegStep) (reg : Registry) (tid : String)
    (rec : TaskRecord) (hnd : (reg.map Prod.fst).Nodup)
    (hget : listGet reg tid = some rec) :
    (listGet (applyStep s reg) tid = none →
      s = .cleanup ∧ isTerminal rec.status = true) ∧
    (∀ rec' : TaskRecord, listGet (applyStep s reg) tid = some rec' →
      rec'.status = rec.status ∨ rec'.status = .cancelled ∨
      rec'.status = .completed ∨ rec'.status = .failed ∨
      (rec'.status = .pending ∧
        ∃ task_name d now, s = .start task_name d now ∧ "task_" ++ Nat.repr d = tid)) := by
  cases s with
  | start task_name d now =>
      have happ : applyStep (.start task_name d now) reg =
          listSet reg ("task_" ++ Nat.repr d) ⟨task_name, now, .pending, none, none⟩ := rfl
      by_cases hid : ("task_" ++ Nat.repr d) = tid
      · subst hid
        constructor
        · intro h
          rw [happ, listGet_listSet_self] at h
          simp at h
        · intro rec' h
          rw [happ, listGet_listSet_self] at h
          have hrec' := Option.some.inj h
          refine Or.inr (Or.inr (Or.inr (Or.inr ⟨by rw [← hrec'], task_name, d, now, rfl, rfl⟩)))
      · constructor
        · intro h
          rw [happ, listGet_listSet_ne _ _ _ _ hid, hget] at h
          simp at h
        · intro rec' h
          rw [happ, listGet_listSet_ne _ _ _ _ hid, hget] at h
          exact Or.inl (by rw [← Option.some.inj h])
  | finish tid' outcome =>
      have happ : applyStep (.finish tid' outcome) reg = finish_task tid' outcome reg := rfl
      cases hx : listGet reg tid' with
      | none =>
          have hfin : finish_task tid' outcome reg = reg := by
            simp [finish_task, hx]
          constructor
          · intro h
            rw [happ, hfin, hget] at h
            simp at h
          · intro rec' h
            rw [happ, hfin, hget] at h
            exact Or.inl (by rw [← Option.some.inj h])
      | some w =>
          cases outcome with
          | ok res =>
              have hfin : finish_task tid' (.ok res) reg =
                  listUpdate reg tid'
                    (fun rec => { rec with status := .completed, result := some res }) := by
                simp [finish_task, hx]
              by_cases htid : tid' = tid
              · subst htid
                constructor
                · intro h
                  rw [happ, hfin, listGet_listUpdate_self _ _ _ _ hget] at h
                  simp at h
                · intro rec' h
                  rw [happ, hfin, listGet_listUpdate_self _ _ _ _ hget] at h
                  exact Or.inr (Or.inr (Or.inl (by rw [← Option.some.inj h])))
              · constructor
                · intro h
                  rw [happ, hfin, listGet_listUpdate_ne _ _ _ _ htid, hget] at h
                  simp at h
                · intro rec' h
                  rw [happ, hfin, listGet_listUpdate_ne _ _ _ _ htid, hget] at h
                  exact Or.inl (by rw [← Option.some.inj h])
          | error e =>
              have hfin : finish_task tid' (.error e) reg =
                  listUpdate reg tid'
                    (fun rec => { rec with status := .failed, error := some e.str }) := by
                simp [finish_task, hx]
              by_cases htid : tid' = tid
              · subst htid
                constructor
                · intro h
                  rw [happ, hfin, listGet_listUpdate_self _ _ _ _ hget] at h
                  simp at h
                · intro rec' h
                  rw [happ, hfin, listGet_listUpdate_self _ _ _ _ hget] at h
                  exact Or.inr (Or.inr (Or.inr (Or.inl (by rw [← Option.some.inj h]))))
              · constructor
                · intro h
                  rw [happ, hfin, listGet_listUpdate_ne _ _ _ _ htid, hget] at h
                  simp at h
                · intro rec' h
                  rw [happ, hfin, listGet_listUpdate_ne _ _ _ _ htid, hget] at h
                  exact Or.inl (by rw [← Option.some.inj h])
  | cancel tid' =>
      cases hx : listGet reg tid' with
      | none =>
          have happ : applyStep (.cancel tid') reg = reg := by
            simp [applyStep, cancel_task, hx]
          constructor
          · intro h
            rw [happ, hget] at h
            simp at h
          · intro rec' h
            rw [happ, hget] at h
            exact Or.inl (by rw [← Option.some.inj h])
      | some w =>
          have happ : applyStep (.cancel tid') reg =
              listUpdate reg tid' (fun rec => { rec with status := .cancelled }) := by
            simp [applyStep, cancel_task, hx]
          by_cases htid : tid' = tid
          · subst htid
            constructor
            · intro h
              rw [happ, listGet_listUpdate_self _ _ _ _ hget] at h
              simp at h
            · intro rec' h
              rw [happ, listGet_listUpdate_self _ _ _ _ hget] at h
              exact Or.inr (Or.inl (by rw [← Option.some.inj h]))
          · constructor
            · intro h
              rw [happ, listGet_listUpdate_ne _ _ _ _ htid, hget] at h
              simp at h
            · intro rec' h
              rw [happ, listGet_listUpdate_ne _ _ _ _ htid, hget] at h
              exact Or.inl (by rw [← Option.some.inj h])
  | cleanup =>
      have happ : applyStep .cleanup reg =
          reg.filter (fun p => !isTerminal p.2.status) := rfl
      have hf := listGet_filter reg tid rec (fun p => !isTerminal p.2.status) hnd hget
      by_cases ht : isTerminal rec.status = true
      · have hnone : listGet (reg.filter fun p => !isTerminal p.2.status) tid = none := by
          rw [hf]
          simp [ht]
        constructor
        · intro _
          exact ⟨rfl, ht⟩
        · intro rec' h
          rw [happ, hnone] at h
          simp at h
      · have ht' : isTerminal rec.status = false := by
          cases hcs : isTerminal rec.status
          · rfl
          · exact absurd hcs ht
        have hsome : listGet (reg.filter fun p => !isTerminal p.2.status) tid = some rec := by
          rw [hf]
          simp [ht']
        constructor
        · intro h
          rw [happ, hsome] at h
          simp at h
        · intro rec' h
          rw [happ, hsome] at h
          exact Or.inl (by rw [← Option.some.inj h])

end

/-- A one-record registry used to instantiate the transition theorem. -/
def regC3 : BackgroundTasks.Registry := [("task_1", ⟨"send_email", "t0", .pending, none, none⟩)]

/-- The record held by `regC3`. -/
def recC3 : BackgroundTasks.TaskRecord := ⟨"send_email", "t0", .pending, none, none⟩

/-- C3 witness: `C3_status_transitions` at a `cancel_task` step on a one-record
registry. -/
theorem C3_witness :
    (regC3.map Prod.fst).Nodup ∧ listGet regC3 "task_1" = some recC3 ∧
    ((listGet (BackgroundTasks.applyStep (.cancel "task_1") regC3) "task_1" = none →
      BackgroundTasks.RegStep.cancel "task_1" = .cleanup ∧
        BackgroundTasks.isTerminal recC3.status = true) ∧
     (∀ rec' : BackgroundTasks.TaskRecord,
        listGet (BackgroundTasks.applyStep (.cancel "task_1") regC3) "task_1" = some rec' →
        rec'.status = recC3.status ∨ rec'.status = .cancelled ∨
        rec'.status = .completed ∨ rec'.status = .failed ∨
        (rec'.status = .pending ∧ ∃ task_name d now,
          BackgroundTasks.RegStep.cancel "task_1" = .start task_name d now ∧
          "task_" ++ Nat.repr d = "task_1"))) := by
  exact ⟨by decide, by decide,
    C3_status_transitions (.cancel "task_1") regC3 "task_1" recC3 (by decide) (by decide)⟩

/-! ### `src/app/database.py` -/

namespace Database

/-- A row of the `users` table. -/
structure DbUser where
  id : ℕ
  email : String
  name : String
  created_at : String
  deriving DecidableEq, Repr

/-- The mock branch of `get_user` (taken when SQLAlchemy is unavailable): a
synthesized record for any id, never an error. -/
def get_user_mock (user_id : ℕ) (now : String) : Except PyError Payload :=
  .ok [("id", .n user_id), ("email", .s ("user" ++ Nat.repr user_id ++ "@example.com")),
       ("name", .s ("Mock User " ++ Nat.repr user_id)), ("created_at", .s now)]

/-- The real branch of `get_user`: a fault draw against `0.1` raising
`OperationalError`, then the query, then `UserNotFoundError` when the id is
absent. -/
def get_user_real (r : ℚ) (db : List DbUser) (user_id : ℕ) : Except PyError Payload :=
  if should_fail (1/10) r then .error (.operationalError "Database connection lost")
  else
    match db.find? (fun u => u.id == user_id) with
    | none => .error (.userNotFoundError ("User with ID " ++ Nat.repr user_id ++ " not found"))
    | some u => .ok [("id", .n u.id), ("email", .s u.email), ("name", .s u.name),
                     ("created_at", .s u.created_at)]

/-- `get_user(user_id)`: dispatches on `SQLALCHEMY_AVAILABLE` between the mock
and the real branch. -/
def get_user (sqlalchemy_available : Bool) (r : ℚ) (db : List DbUser) (user_id : ℕ)
    (now : String) : Except PyError Payload :=
  if !sqlalchemy_available then get_user_mock user_id now
  else get_user_real r db user_id

end Database

/-- C10 counterexample: in mock mode `get_user` on an id absent from the store
(the store is empty) returns a synthesized record rather than failing with
NotFound, while real mode does fail with `UserNotFoundError`. -/
theorem C10_counterexample :
    Database.get_user false (1/2) [] 42 "t0" =
      .ok [("id", .n 42), ("email", .s "user42@example.com"),
           ("name", .s "Mock User 42"), ("created_at", .s "t0")] ∧
    Database.get_user true (1/2) [] 42 "t0" =
      .error (.userNotFoundError "User with ID 42 not found") := by
  have h : should_fail (1/10) (1/2 : ℚ) = false := by norm_num [should_fail]
  constructor
  · rfl
  · have h1 : Database.get_user true (1/2) [] 42 "t0" = Database.get_user_real (1/2) [] 42 := rfl
    have h2 : Database.get_user_real (1/2) [] 42 =
        .error (.userNotFoundError ("User with ID " ++ Nat.repr 42 ++ " not found")) := by
      simp only [Database.get_user_real, h]
      simp
    rw [h1, h2]
    rfl

/-- C10 (amended): in real mode `get_user` fails with `UserNotFoundError` on
any id absent from the store (fault draw not firing), but in mock mode it never
fails: it returns a synthesized record for every id. -/
theorem C10_get_user_modes (r : ℚ) (db : List Database.DbUser) (user_id : ℕ) (now : String) :
    (should_fail (1/10) r = false → (∀ u ∈ db, u.id ≠ user_id) →
      Database.get_user true r db user_id now =
        .error (.userNotFoundError ("User with ID " ++ Nat.repr user_id ++ " not found"))) ∧
    Database.get_user false r db user_id now =
      .ok [("id", .n user_id), ("email", .s ("user" ++ Nat.repr user_id ++ "@example.com")),
           ("name", .s ("Mock User " ++ Nat.repr user_id)), ("created_at", .s now)] := by
  constructor
  · intro hf habs
    have hfind : db.find? (fun u => u.id == user_id) = none := by
      rw [List.find?_eq_none]
      intro u hu
      simp [habs u hu]
    show Database.get_user_real r db user_id = _
    simp only [Database.get_user_real, hf, hfind]
    simp
  · rfl

/-- C10 witness: `C10_get_user_modes` at a one-user store and the absent id 42. -/
theorem C10_witness :
    should_fail (1/10) (1/3 : ℚ) = false ∧
    (∀ u ∈ ([⟨1, "john@example.com", "John Doe", "t0"⟩] : List Database.DbUser), u.id ≠ 42) ∧
    Database.get_user true (1/3) [⟨1, "john@example.com", "John Doe", "t0"⟩] 42 "t1" =
      .error (.userNotFoundError ("User with ID " ++ Nat.repr 42 ++ " not found")) ∧
    Database.get_user false (1/3) [⟨1, "john@example.com", "John Doe", "t0"⟩] 42 "t1" =
      .ok [("id", .n 42), ("email", .s ("user" ++ Nat.repr 42 ++ "@example.com")),
           ("name", .s ("Mock User " ++ Nat.repr 42)), ("created_at", .s "t1")] := by
  have h := C10_get_user_modes (1/3) [⟨1, "john@example.com", "John Doe", "t0"⟩] 42 "t1"
  exact ⟨by norm_num [should_fail], by decide,
    h.1 (by norm_num [should_fail]) (by decide), h.2⟩
